import Mathlib

/-!
Verification development for the prof-viewer deferred tile data pipeline.

The Rust sources embedded here are `src/app.rs` (passport/dedup logic, the
Summary and Slot widgets' data caches), `src/deferred_data.rs`
(`DeferredDataSourceWrapper`), and `src/http/queueclient.rs`
(`HTTPQueueDataSource` and its work queue).  The crate modules `data`,
`timestamp` and `temp` are declared in `lib.rs` but their files are not part
of the source tree available here, so the value types they define (Interval,
EntryID, TileID, the tile payloads and the synchronous `DataSource` trait)
are modelled from the specification (spec sections 3, 4.1, 4.2).

Conventions of the embedding:
* machine integers are modelled as `Int`/`Nat` (no arithmetic overflows are
  relevant to the embedded code paths);
* Rust code that can panic is modelled with `Option`, `none` standing for
  the panic;
* the `DefaultHasher`-based passport stamps are modelled by the `Stamp`
  inductive whose constructors carry exactly the data fed to the hasher at
  each call site (the spec calls the fingerprint a "collision-resistant-
  enough hash", which we idealize as injectivity of the hash input);
* `&mut self` methods become functions from state to state; calls into the
  boxed data source are modelled by passing the backend's response as an
  explicit argument, and issued requests are returned so that theorems can
  talk about what reaches the transport.
-/

namespace ProfViewer

/-- Modelled from the spec: `timestamp.rs` is not in the available sources.
Interval `{start: i64, stop: i64}`, `start <= stop` expected but not
enforced by the type (spec section 3). -/
structure Interval where
  start : Int
  stop : Int
deriving DecidableEq, Repr

/-- Modelled from the spec: `overlaps(a,b)` is true iff the closed
intersection is non-empty (spec section 4.1). -/
def Interval.overlaps (a b : Interval) : Bool :=
  decide (a.start ≤ b.stop) && decide (b.start ≤ a.stop)

/-- Modelled from the spec: `intersection` returns the tightest interval
contained in both inputs (spec section 4.1); possibly inverted when the
inputs do not overlap. -/
def Interval.intersection (a b : Interval) : Interval :=
  ⟨max a.start b.start, min a.stop b.stop⟩

instance : Inhabited Interval := ⟨⟨0, 0⟩⟩

/-- Modelled from the spec: `data.rs` is not in the available sources.
EntryID is an ordered sequence of non-negative integers, one per hierarchy
level, root having zero elements (spec section 3). -/
abbrev EntryID := List Nat

/-- Modelled from the spec: the root EntryID has zero elements. -/
def EntryID.root : EntryID := []

/-- Modelled from the spec: `child(i)` appends index `i` (spec section 3). -/
def EntryID.child (e : EntryID) (i : Nat) : EntryID :=
  List.append e [i]

/-- Modelled from the spec: TileID wraps an Interval; two tiles with equal
intervals are equal (spec section 3).  The Rust code projects the interval
as `t.0`; here it is the field `i`. -/
structure TileID where
  i : Interval
deriving DecidableEq, Repr

/-- Modelled from the spec: SummaryTile carries aggregate utilization
samples for one entry over a tile's interval (spec section 3).  The
floating-point sample values are not modelled; the sample type is a
parameter `U`. -/
structure SummaryTile (U : Type) where
  tile_id : TileID
  utilization : List U
deriving DecidableEq, Repr

/-- Modelled from the spec: SlotTile carries ordered rows of items (spec
section 3).  The item type is a parameter `I`. -/
structure SlotTile (I : Type) where
  tile_id : TileID
  items : List (List I)
deriving DecidableEq, Repr

/-- Modelled from the spec: SlotMetaTile carries the per-item metadata for
the same row layout as a SlotTile (spec section 3).  The metadata item type
is a parameter `M`. -/
structure SlotMetaTile (M : Type) where
  tile_id : TileID
  items : List (List M)
deriving DecidableEq, Repr

/-- Modelled from the spec: the Initializer is the top-level description
returned once at startup; only the overall interval matters to the embedded
code (spec section 3). -/
structure Initializer where
  interval : Interval
deriving DecidableEq, Repr

/-!
## The passport (dedup ledger) of `src/app.rs`

The Rust code computes each stamp as the hex string of a `DefaultHasher`
run over a fixed sequence of values.  A `Stamp` constructor records exactly
the values hashed at the corresponding call site:

* `Summary::inflate`/`Slot::inflate` hash `(entry_id, interval,
  "fetch_tiles")` before calling `fetch_tiles`;
* `Summary::inflate` hashes `(entry_id, tile, "summary_tile")` before
  calling `fetch_summary_tile`;
* `Slot::inflate` hashes `(entry_id, tile, "slot_tile")` before calling
  `fetch_slot_tile`;
* `Slot::fetch_meta_tile` hashes `(tile_id, "fetch_meta_tile")` — the
  entry id is not hashed at this call site.
-/
inductive Stamp where
  | fetchTiles (entry_id : EntryID) (interval : Interval)
  | summaryTile (entry_id : EntryID) (tile : TileID)
  | slotTile (entry_id : EntryID) (tile : TileID)
  | fetchMetaTile (tile_id : TileID)
deriving DecidableEq, Repr

/-- The stamp computed by `Slot::fetch_meta_tile` (src/app.rs lines
472-476): only `tile_id` and the string `"fetch_meta_tile"` are hashed;
the `entry_id` argument is not fed to the hasher. -/
def metaStampOf (_entry_id : EntryID) (tile_id : TileID) : Stamp :=
  Stamp.fetchMetaTile tile_id

/-- `ZoomState` of src/app.rs. -/
structure ZoomState where
  levels : List Interval
  index : Nat
  zoom_count : Nat
deriving DecidableEq, Repr

/-- `Context` of src/app.rs, restricted to the fields read or written by
the embedded operations (the egui rendering fields `row_height`,
`subheading_size`, `drag_origin`, `slot_rect`, `selected_state`,
`toggle_dark_mode` and `debug` are omitted). -/
structure Context where
  total_interval : Interval
  view_interval : Interval
  view_interval_start_buffer : String
  view_interval_stop_buffer : String
  zoom_state : ZoomState
  passport : Finset Stamp
deriving DecidableEq

namespace ProfApp

/-- `ProfApp::zoom` (src/app.rs lines 1178-1191). -/
def zoom (cx : Context) (interval : Interval) : Context :=
  if cx.view_interval = interval then cx
  else
    let levels := cx.zoom_state.levels.take (cx.zoom_state.index + 1) ++ [interval]
    { cx with
      view_interval := interval
      view_interval_start_buffer := toString interval.start
      view_interval_stop_buffer := toString interval.stop
      zoom_state := { levels := levels, index := levels.length - 1, zoom_count := 0 } }

/-- `ProfApp::undo_zoom` (src/app.rs lines 1193-1202).  The list index
`levels[index]` is modelled with a default; the reachable states keep
`index` in bounds. -/
def undo_zoom (cx : Context) : Context :=
  if cx.zoom_state.index = 0 then cx
  else
    let index := cx.zoom_state.index - 1
    let vi := cx.zoom_state.levels.getD index default
    { cx with
      view_interval := vi
      view_interval_start_buffer := toString vi.start
      view_interval_stop_buffer := toString vi.stop
      zoom_state := { cx.zoom_state with index := index, zoom_count := 0 } }

/-- `ProfApp::redo_zoom` (src/app.rs lines 1204-1213). -/
def redo_zoom (cx : Context) : Context :=
  if cx.zoom_state.index = cx.zoom_state.levels.length - 1 then cx
  else
    let index := cx.zoom_state.index + 1
    let vi := cx.zoom_state.levels.getD index default
    { cx with
      view_interval := vi
      view_interval_start_buffer := toString vi.start
      view_interval_stop_buffer := toString vi.stop
      zoom_state := { cx.zoom_state with index := index, zoom_count := 0 } }

end ProfApp

/-- `Config` of src/app.rs (the boxed `data_source` is modelled by passing
backend responses to the operations that consult it). -/
structure Config where
  min_node : Nat
  max_node : Nat
  interval : Interval
deriving DecidableEq

/-- The `Summary` widget state of src/app.rs (the render-only `color` field
is omitted).  `U` is the utilization-sample type. -/
structure Summary (U : Type) where
  entry_id : EntryID
  utilization : List U
  last_view_interval : Option Interval
  is_inflating : Bool

/-- The `Slot` widget state of src/app.rs.  `I` is the item type, `M` the
item-metadata type. -/
structure Slot (I M : Type) where
  entry_id : EntryID
  short_name : String
  long_name : String
  expanded : Bool
  max_rows : Nat
  tiles : List (SlotTile I)
  tile_metas : List (TileID × SlotMetaTile M)
  last_view_interval : Option Interval
  is_inflating : Bool

/-- The passport check-and-record discipline shared by all four fetch call
sites in src/app.rs (the spec's `should_issue`, section 4.3): if the stamp
is absent it is recorded and the fetch must be issued (`true`), otherwise
nothing is recorded and the fetch is skipped (`false`). -/
def shouldIssue (cx : Context) (s : Stamp) : Context × Bool :=
  if s ∈ cx.passport then (cx, false)
  else ({ cx with passport := insert s cx.passport }, true)

/-- The per-tile fetch loop shared by `Summary::inflate` (src/app.rs lines
249-260) and `Slot::inflate` (lines 449-460): for each tile of the filtered
listing a stamp `mk tile` is computed, and the tile's fetch is issued
exactly when the stamp was absent from the passport.  `issueStep` is one
iteration of the loop; `issueTileFetches` returns the updated context and
the tiles whose fetch was issued, in order. -/
def issueStep (mk : TileID → Stamp) (acc : Context × List TileID) (tile : TileID) :
    Context × List TileID :=
  let p := shouldIssue acc.1 (mk tile)
  (p.1, if p.2 then acc.2 ++ [tile] else acc.2)

/-- The per-tile fetch loop, folded over the filtered tile listing. -/
def issueTileFetches (mk : TileID → Stamp) (cx : Context) (tiles : List TileID) :
    Context × List TileID :=
  tiles.foldl (issueStep mk) (cx, [])

/-- `Summary::clear` (src/app.rs lines 220-222). -/
def Summary.clear {U : Type} (su : Summary U) : Summary U :=
  { su with utilization := [] }

/-- `Slot::clear` (src/app.rs lines 419-422). -/
def Slot.clear {I M : Type} (sl : Slot I M) : Slot I M :=
  { sl with tiles := [], tile_metas := [] }

/-- Result of `Summary::inflate`: the updated widget and context, whether
the `fetch_tiles` call reached the data source, the tile listing filtered
to the request interval, and the tiles whose `fetch_summary_tile` was
issued. -/
structure SummaryInflateResult (U : Type) where
  summary : Summary U
  cx : Context
  issuedTileListing : Bool
  usedTiles : List TileID
  issuedSummaryFetches : List TileID

/-- `Summary::inflate` (src/app.rs lines 224-265).  The data source's
`get_tiles` and `get_summary_tiles` responses are passed as arguments;
issued fetches are reported in the result. -/
def Summary.inflate {U : Type} (su : Summary U) (config : Config) (cx : Context)
    (getTilesResp : List TileID) (getSummaryResp : List (SummaryTile U)) :
    SummaryInflateResult U :=
  let su := { su with is_inflating := true }
  let interval := config.interval.intersection cx.view_interval
  let p := shouldIssue cx (Stamp.fetchTiles su.entry_id interval)
  let tiles := getTilesResp.filter (fun t => t.i.overlaps interval)
  let q := issueTileFetches (Stamp.summaryTile su.entry_id) p.1 tiles
  { summary :=
      { su with
        utilization := su.utilization ++ (getSummaryResp.map SummaryTile.utilization).flatten }
    cx := q.1
    issuedTileListing := p.2
    usedTiles := tiles
    issuedSummaryFetches := q.2 }

/-- Result of `Slot::inflate`, mirroring `SummaryInflateResult`. -/
structure SlotInflateResult (I M : Type) where
  slot : Slot I M
  cx : Context
  issuedTileListing : Bool
  usedTiles : List TileID
  issuedSlotFetches : List TileID

/-- `Slot::inflate` (src/app.rs lines 424-465). -/
def Slot.inflate {I M : Type} (sl : Slot I M) (config : Config) (cx : Context)
    (getTilesResp : List TileID) (getSlotResp : List (SlotTile I)) :
    SlotInflateResult I M :=
  let sl := { sl with is_inflating := true }
  let interval := config.interval.intersection cx.view_interval
  let p := shouldIssue cx (Stamp.fetchTiles sl.entry_id interval)
  let tiles := getTilesResp.filter (fun t => t.i.overlaps interval)
  let q := issueTileFetches (Stamp.slotTile sl.entry_id) p.1 tiles
  { slot := { sl with tiles := sl.tiles ++ getSlotResp }
    cx := q.1
    issuedTileListing := p.2
    usedTiles := tiles
    issuedSlotFetches := q.2 }

/-- Result of `Slot::fetch_meta_tile`. -/
structure FetchMetaResult (I M : Type) where
  slot : Slot I M
  cx : Context
  issuedMetaFetch : Bool
  result : Option (SlotMetaTile M)

/-- `Slot::fetch_meta_tile` (src/app.rs lines 467-496).  The passport stamp
is `metaStampOf`, which hashes only the tile id and the call-site tag; the
`get_slot_meta_tiles` response is passed as an argument.  A `BTreeMap`
insert is modelled by prepending the binding (`List.lookup` finds the most
recent one). -/
def Slot.fetch_meta_tile {I M : Type} [DecidableEq M] (sl : Slot I M) (tile_id : TileID)
    (cx : Context) (getMetaResp : List (SlotMetaTile M)) : FetchMetaResult I M :=
  match sl.tile_metas.lookup tile_id with
  | some entry => ⟨sl, cx, false, some entry⟩
  | none =>
    let p := shouldIssue cx (metaStampOf sl.entry_id tile_id)
    let meta_tiles := getMetaResp.filter (fun mt => mt.tile_id == tile_id)
    match meta_tiles.getLast? with
    | some mt =>
        ⟨{ sl with tile_metas := (tile_id, mt) :: sl.tile_metas }, p.1, p.2, some mt⟩
    | none => ⟨sl, p.1, p.2, none⟩

/-- The data-maintenance prefix of `Slot::content` (src/app.rs lines
746-756): when the slot is expanded, its caches are cleared if the view
interval changed since the last frame, the new view interval is recorded,
and the slot inflates when its tile cache is empty.  The per-tile rendering
and the `selected_state` handling are not modelled. -/
def Slot.content {I M : Type} (sl : Slot I M) (config : Config) (cx : Context)
    (getTilesResp : List TileID) (getSlotResp : List (SlotTile I)) :
    SlotInflateResult I M :=
  if sl.expanded then
    let changed : Bool :=
      match sl.last_view_interval with
      | none => true
      | some i => decide (i ≠ cx.view_interval)
    let sl := if changed then sl.clear else sl
    let sl := { sl with last_view_interval := some cx.view_interval }
    if sl.tiles.isEmpty then Slot.inflate sl config cx getTilesResp getSlotResp
    else ⟨sl, cx, false, [], []⟩
  else ⟨sl, cx, false, [], []⟩

/-!
## `DeferredDataSourceWrapper` of src/deferred_data.rs
-/

/-- Modelled from the spec: the synchronous `DataSource` trait lives in the
missing `data.rs`; only the methods `DeferredDataSourceWrapper` consults
are modelled, each as a pure response function of the request (spec
sections 2 and 9 describe the trait as a synchronous backend behind
`Box<dyn DataSource>`). -/
structure DataSource (U I M : Type) where
  fetch_info : Initializer
  request_tiles : EntryID → Interval → List TileID
  fetch_summary_tile : EntryID → TileID → SummaryTile U
  fetch_slot_tile : EntryID → TileID → SlotTile I
  fetch_slot_meta_tile : EntryID → TileID → SlotMetaTile M

/-- `DeferredDataSourceWrapper` of src/deferred_data.rs; the `BTreeMap` of
tile listings is modelled as a partial function. -/
structure DeferredDataSourceWrapper (U I M : Type) where
  data_source : DataSource U I M
  tiles : EntryID → Option (List TileID)
  summary_tiles : List (SummaryTile U)
  slot_tiles : List (SlotTile I)
  slot_meta_tiles : List (SlotMetaTile M)

namespace DeferredDataSourceWrapper

variable {U I M : Type}

/-- `DeferredDataSourceWrapper::new` (src/deferred_data.rs lines 28-36). -/
def new (ds : DataSource U I M) : DeferredDataSourceWrapper U I M :=
  { data_source := ds
    tiles := fun _ => none
    summary_tiles := []
    slot_tiles := []
    slot_meta_tiles := [] }

/-- `fetch_info` for the wrapper (src/deferred_data.rs line 40): a no-op. -/
def fetch_info (w : DeferredDataSourceWrapper U I M) : DeferredDataSourceWrapper U I M := w

/-- `get_info` for the wrapper (src/deferred_data.rs lines 42-44): always
`Some` of the wrapped source's info. -/
def get_info (w : DeferredDataSourceWrapper U I M) : Option Initializer :=
  some w.data_source.fetch_info

/-- `fetch_tiles` for the wrapper (src/deferred_data.rs lines 46-59): the
backend's listing is merged into the cached listing, keeping existing
entries and appending only tile ids not already present.  Both
`entry(..).or_insert(..)` calls are modelled by `Option.getD`. -/
def fetch_tiles (w : DeferredDataSourceWrapper U I M) (entry_id : EntryID)
    (request_interval : Interval) : DeferredDataSourceWrapper U I M :=
  let tiles := w.data_source.request_tiles entry_id request_interval
  let value := (w.tiles entry_id).getD tiles
  let cur := (w.tiles entry_id).getD tiles
  { w with
    tiles := fun e =>
      if e = entry_id then some (cur ++ tiles.filter (fun x => decide (x ∉ value)))
      else w.tiles e }

/-- `get_tiles` for the wrapper (src/deferred_data.rs lines 61-63).  The
source runs `self.tiles.get(&entry_id).unwrap().clone()`; the `none` result
models the panic of `unwrap` on an entry never fetched. -/
def get_tiles (w : DeferredDataSourceWrapper U I M) (entry_id : EntryID) :
    Option (List TileID) :=
  w.tiles entry_id

/-- `fetch_summary_tile` for the wrapper (src/deferred_data.rs lines
65-69). -/
def fetch_summary_tile (w : DeferredDataSourceWrapper U I M) (entry_id : EntryID)
    (tile_id : TileID) : DeferredDataSourceWrapper U I M :=
  { w with
    summary_tiles := w.summary_tiles ++ [w.data_source.fetch_summary_tile entry_id tile_id] }

/-- `get_summary_tiles` for the wrapper (src/deferred_data.rs lines 71-75):
returns the cached summary tiles and clears the cache. -/
def get_summary_tiles (w : DeferredDataSourceWrapper U I M) :
    List (SummaryTile U) × DeferredDataSourceWrapper U I M :=
  (w.summary_tiles, { w with summary_tiles := [] })

/-- `fetch_slot_tile` for the wrapper (src/deferred_data.rs lines 76-80). -/
def fetch_slot_tile (w : DeferredDataSourceWrapper U I M) (entry_id : EntryID)
    (tile_id : TileID) : DeferredDataSourceWrapper U I M :=
  { w with slot_tiles := w.slot_tiles ++ [w.data_source.fetch_slot_tile entry_id tile_id] }

/-- `get_slot_tile` for the wrapper (src/deferred_data.rs lines 82-87):
returns the cached slot tiles and clears the cache. -/
def get_slot_tile (w : DeferredDataSourceWrapper U I M) :
    List (SlotTile I) × DeferredDataSourceWrapper U I M :=
  (w.slot_tiles, { w with slot_tiles := [] })

/-- `fetch_slot_meta_tile` for the wrapper (src/deferred_data.rs lines
89-93). -/
def fetch_slot_meta_tile (w : DeferredDataSourceWrapper U I M) (entry_id : EntryID)
    (tile_id : TileID) : DeferredDataSourceWrapper U I M :=
  { w with
    slot_meta_tiles :=
      w.slot_meta_tiles ++ [w.data_source.fetch_slot_meta_tile entry_id tile_id] }

/-- `get_slot_meta_tile` for the wrapper (src/deferred_data.rs lines
95-99): returns the cached slot-meta tiles and clears the cache. -/
def get_slot_meta_tile (w : DeferredDataSourceWrapper U I M) :
    List (SlotMetaTile M) × DeferredDataSourceWrapper U I M :=
  (w.slot_meta_tiles, { w with slot_meta_tiles := [] })

end DeferredDataSourceWrapper

/-!
## `HTTPQueueDataSource` of src/http/queueclient.rs
-/

/-- `ProcessType` of src/queue/queue.rs. -/
inductive ProcessType where
  | FETCH_SLOT_META_TILE
  | FETCH_SLOT_META_TILES
  | FETCH_SLOT_TILE
  | FETCH_SLOT_TILES
  | REQUEST_TILES
  | FETCH_SUMMARY_TILE
  | FETCH_SUMMARY_TILES
  | INTERVAL
deriving DecidableEq, Repr

/-- `Work` of src/queue/queue.rs; `data` carries the JSON response text of
a completed request. -/
structure Work where
  entry_id : EntryID
  tile_id : Option TileID
  tile_ids : Option (List TileID)
  interval : Option Interval
  data : String
  process_type : ProcessType
deriving DecidableEq, Repr

/-- The `serde_json::from_str::<T>` deserializers invoked by
`process_queue`, modelled as abstract partial parsers; `none` models a
serde error (which the source immediately unwraps). -/
structure Decoders (U I M : Type) where
  slotMetaTile : String → Option (SlotMetaTile M)
  slotMetaTiles : String → Option (List (SlotMetaTile M))
  slotTile : String → Option (SlotTile I)
  slotTiles : String → Option (List (SlotTile I))
  tileList : String → Option (List TileID)
  summaryTile : String → Option (SummaryTile U)
  summaryTiles : String → Option (List (SummaryTile U))
  interval : String → Option Interval

/-- Pointwise update of a map modelled as a partial function (`BTreeMap
::insert`). -/
def mapUpdate {κ α : Type} [DecidableEq κ] (m : κ → Option α) (k : κ) (v : α) :
    κ → Option α :=
  fun q => if q = k then some v else m q

/-- The state of `HTTPQueueDataSource` (src/http/queueclient.rs lines
21-36): the shared work queue and the seven response caches, each
`BTreeMap` modelled as a partial function.  The transport fields `host`,
`port` and `client`, and the startup fields `fetch_info`/`initializer`
(whose `EntryInfo` type is rendering-side), are omitted. -/
structure HTTPQueueDataSource (U I M : Type) where
  queue : List Work
  interval : Interval
  request_tiles_cache : EntryID × Interval → Option (List TileID)
  fetch_summary_tile_cache : EntryID × TileID → Option (SummaryTile U)
  fetch_summary_tiles_cache : EntryID × List TileID → Option (List (SummaryTile U))
  fetch_slot_tile_cache : EntryID × TileID → Option (SlotTile I)
  fetch_slot_tiles_cache : EntryID × List TileID → Option (List (SlotTile I))
  fetch_slot_meta_tile_cache : EntryID × TileID → Option (SlotMetaTile M)
  fetch_slot_meta_tiles_cache : EntryID × List TileID → Option (List (SlotMetaTile M))

namespace HTTPQueueDataSource

variable {U I M : Type}

/-- Processing of a single queued work item inside `process_queue`
(src/http/queueclient.rs lines 75-146): the item's payload is deserialized
according to its discriminator and folded into the matching cache; an
`INTERVAL` item replaces the stored interval and clears all seven caches.
Every `unwrap` of the source (on the deserialization result and on the
`interval`/`tile_ids` fields) is modelled by `Option` bind, `none`
modelling the panic. -/
def processWork (d : Decoders U I M) (s : HTTPQueueDataSource U I M) (work : Work) :
    Option (HTTPQueueDataSource U I M) :=
  match work.process_type with
  | .FETCH_SLOT_META_TILE => do
      let smt ← d.slotMetaTile work.data
      pure { s with
        fetch_slot_meta_tile_cache :=
          mapUpdate s.fetch_slot_meta_tile_cache (work.entry_id, smt.tile_id) smt }
  | .FETCH_SLOT_TILE => do
      let st ← d.slotTile work.data
      pure { s with
        fetch_slot_tile_cache :=
          mapUpdate s.fetch_slot_tile_cache (work.entry_id, st.tile_id) st }
  | .REQUEST_TILES => do
      let tiles ← d.tileList work.data
      let iv ← work.interval
      pure { s with
        request_tiles_cache :=
          mapUpdate s.request_tiles_cache (work.entry_id, iv) tiles }
  | .FETCH_SUMMARY_TILE => do
      let st ← d.summaryTile work.data
      pure { s with
        fetch_summary_tile_cache :=
          mapUpdate s.fetch_summary_tile_cache (work.entry_id, st.tile_id) st }
  | .FETCH_SLOT_META_TILES => do
      let smts ← d.slotMetaTiles work.data
      let tids ← work.tile_ids
      pure { s with
        fetch_slot_meta_tiles_cache :=
          mapUpdate s.fetch_slot_meta_tiles_cache (work.entry_id, tids) smts }
  | .FETCH_SLOT_TILES => do
      let sts ← d.slotTiles work.data
      let tids ← work.tile_ids
      pure { s with
        fetch_slot_tiles_cache :=
          mapUpdate s.fetch_slot_tiles_cache (work.entry_id, tids) sts }
  | .FETCH_SUMMARY_TILES => do
      let sts ← d.summaryTiles work.data
      let tids ← work.tile_ids
      pure { s with
        fetch_summary_tiles_cache :=
          mapUpdate s.fetch_summary_tiles_cache (work.entry_id, tids) sts }
  | .INTERVAL => do
      let iv ← d.interval work.data
      pure { s with
        interval := iv
        request_tiles_cache := fun _ => none
        fetch_slot_meta_tile_cache := fun _ => none
        fetch_slot_tile_cache := fun _ => none
        fetch_summary_tile_cache := fun _ => none
        fetch_summary_tiles_cache := fun _ => none
        fetch_slot_meta_tiles_cache := fun _ => none
        fetch_slot_tiles_cache := fun _ => none }

/-- `HTTPQueueDataSource::process_queue` (src/http/queueclient.rs lines
71-149): every queued item is folded into the caches in order, then the
queue is emptied.  `none` models a panic while processing some item. -/
def process_queue (d : Decoders U I M) (s : HTTPQueueDataSource U I M) :
    Option (HTTPQueueDataSource U I M) := do
  let s' ← s.queue.foldlM (processWork d) s
  pure { s' with queue := [] }

/-- `HTTPQueueDataSource::request_tiles` (src/http/queueclient.rs lines
267-293): drains the queue, then either answers from the cache or reports
the work item handed to the transport. -/
def request_tiles (d : Decoders U I M) (s : HTTPQueueDataSource U I M)
    (entry_id : EntryID) (request_interval : Interval) :
    Option (HTTPQueueDataSource U I M × Option (List TileID) × Option Work) := do
  let s ← process_queue d s
  match s.request_tiles_cache (entry_id, request_interval) with
  | some tiles => pure (s, some tiles, none)
  | none =>
      pure (s, none,
        some ⟨entry_id, none, none, some request_interval, "", ProcessType.REQUEST_TILES⟩)

/-- `HTTPQueueDataSource::fetch_summary_tile` (src/http/queueclient.rs
lines 295-315).  Unlike its siblings, the source does NOT call
`process_queue` here: the cache is consulted directly. -/
def fetch_summary_tile (s : HTTPQueueDataSource U I M) (entry_id : EntryID)
    (tile_id : TileID) :
    HTTPQueueDataSource U I M × Option (SummaryTile U) × Option Work :=
  match s.fetch_summary_tile_cache (entry_id, tile_id) with
  | some st => (s, some st, none)
  | none =>
      (s, none, some ⟨entry_id, some tile_id, none, none, "", ProcessType.FETCH_SUMMARY_TILE⟩)

/-- `HTTPQueueDataSource::fetch_summary_tiles` (src/http/queueclient.rs
lines 317-344).  Like `fetch_summary_tile`, the source does NOT call
`process_queue` here. -/
def fetch_summary_tiles (s : HTTPQueueDataSource U I M) (entry_id : EntryID)
    (tile_ids : List TileID) :
    HTTPQueueDataSource U I M × Option (List (SummaryTile U)) × Option Work :=
  match s.fetch_summary_tiles_cache (entry_id, tile_ids) with
  | some st => (s, some st, none)
  | none =>
      (s, none, some ⟨entry_id, none, some tile_ids, none, "", ProcessType.FETCH_SUMMARY_TILES⟩)

/-- `HTTPQueueDataSource::fetch_slot_tile` (src/http/queueclient.rs lines
345-364): drains the queue first. -/
def fetch_slot_tile (d : Decoders U I M) (s : HTTPQueueDataSource U I M)
    (entry_id : EntryID) (tile_id : TileID) :
    Option (HTTPQueueDataSource U I M × Option (SlotTile I) × Option Work) := do
  let s ← process_queue d s
  match s.fetch_slot_tile_cache (entry_id, tile_id) with
  | some st => pure (s, some st, none)
  | none =>
      pure (s, none, some ⟨entry_id, some tile_id, none, none, "", ProcessType.FETCH_SLOT_TILE⟩)

/-- `HTTPQueueDataSource::fetch_slot_tiles` (src/http/queueclient.rs lines
366-392): drains the queue first. -/
def fetch_slot_tiles (d : Decoders U I M) (s : HTTPQueueDataSource U I M)
    (entry_id : EntryID) (tile_ids : List TileID) :
    Option (HTTPQueueDataSource U I M × Option (List (SlotTile I)) × Option Work) := do
  let s ← process_queue d s
  match s.fetch_slot_tiles_cache (entry_id, tile_ids) with
  | some st => pure (s, some st, none)
  | none =>
      pure (s, none, some ⟨entry_id, none, some tile_ids, none, "", ProcessType.FETCH_SLOT_TILES⟩)

/-- `HTTPQueueDataSource::fetch_slot_meta_tile` (src/http/queueclient.rs
lines 394-419): drains the queue first. -/
def fetch_slot_meta_tile (d : Decoders U I M) (s : HTTPQueueDataSource U I M)
    (entry_id : EntryID) (tile_id : TileID) :
    Option (HTTPQueueDataSource U I M × Option (SlotMetaTile M) × Option Work) := do
  let s ← process_queue d s
  match s.fetch_slot_meta_tile_cache (entry_id, tile_id) with
  | some smt => pure (s, some smt, none)
  | none =>
      pure (s, none,
        some ⟨entry_id, some tile_id, none, none, "", ProcessType.FETCH_SLOT_META_TILE⟩)

/-- `HTTPQueueDataSource::fetch_slot_meta_tiles` (src/http/queueclient.rs
lines 420-445): drains the queue first. -/
def fetch_slot_meta_tiles (d : Decoders U I M) (s : HTTPQueueDataSource U I M)
    (entry_id : EntryID) (tile_ids : List TileID) :
    Option (HTTPQueueDataSource U I M × Option (List (SlotMetaTile M)) × Option Work) := do
  let s ← process_queue d s
  match s.fetch_slot_meta_tiles_cache (entry_id, tile_ids) with
  | some smt => pure (s, some smt, none)
  | none =>
      pure (s, none,
        some ⟨entry_id, none, some tile_ids, none, "", ProcessType.FETCH_SLOT_META_TILES⟩)

end HTTPQueueDataSource

/-!
## Concrete instances used to evaluate the model
-/

/-- A trivial synchronous backend over unit payloads. -/
def trivDataSource : DataSource Unit Unit Unit where
  fetch_info := ⟨⟨0, 0⟩⟩
  request_tiles := fun _ _ => []
  fetch_summary_tile := fun _ _ => ⟨⟨⟨0, 0⟩⟩, []⟩
  fetch_slot_tile := fun _ _ => ⟨⟨⟨0, 0⟩⟩, []⟩
  fetch_slot_meta_tile := fun _ _ => ⟨⟨⟨0, 0⟩⟩, []⟩

/-- A wrapper state holding one completed summary tile in its cache. -/
def cachedSummaryWrapper : DeferredDataSourceWrapper Unit Unit Unit :=
  ⟨trivDataSource, fun _ => none, [⟨⟨⟨0, 1⟩⟩, []⟩], [], []⟩

/-- Decoders that successfully parse summary-tile payloads (to a fixed
tile) and fail on everything else. -/
def summaryDecoders : Decoders Unit Unit Unit where
  slotMetaTile := fun _ => none
  slotMetaTiles := fun _ => none
  slotTile := fun _ => none
  slotTiles := fun _ => none
  tileList := fun _ => none
  summaryTile := fun _ => some ⟨⟨⟨0, 4⟩⟩, []⟩
  summaryTiles := fun _ => none
  interval := fun _ => none

/-- Decoders on which every payload fails to deserialize, modelling
`serde_json::from_str` rejecting malformed response text. -/
def failingDecoders : Decoders Unit Unit Unit where
  slotMetaTile := fun _ => none
  slotMetaTiles := fun _ => none
  slotTile := fun _ => none
  slotTiles := fun _ => none
  tileList := fun _ => none
  summaryTile := fun _ => none
  summaryTiles := fun _ => none
  interval := fun _ => none

/-- A queue-client state whose queue holds one completed summary-tile
response for entry `[0]`, tile `[0,4)`, not yet drained into the caches. -/
def queuedSummaryState : HTTPQueueDataSource Unit Unit Unit :=
  ⟨[⟨[0], some ⟨⟨0, 4⟩⟩, none, none, "resp", ProcessType.FETCH_SUMMARY_TILE⟩],
   ⟨0, 10⟩, fun _ => none, fun _ => none, fun _ => none, fun _ => none, fun _ => none,
   fun _ => none, fun _ => none⟩

/-- A queue-client state whose queue holds one slot-tile work item whose
payload text is not valid JSON for a `SlotTile`. -/
def malformedQueueState : HTTPQueueDataSource Unit Unit Unit :=
  ⟨[⟨[0], none, none, none, "garbage", ProcessType.FETCH_SLOT_TILE⟩],
   ⟨0, 10⟩, fun _ => none, fun _ => none, fun _ => none, fun _ => none, fun _ => none,
   fun _ => none, fun _ => none⟩

/-!
## Lemmas about the passport discipline
-/

theorem shouldIssue_view_interval (cx : Context) (s : Stamp) :
    (shouldIssue cx s).1.view_interval = cx.view_interval := by
  unfold shouldIssue; split <;> rfl

theorem shouldIssue_passport_mono (cx : Context) (s : Stamp) {s' : Stamp}
    (h : s' ∈ cx.passport) : s' ∈ (shouldIssue cx s).1.passport := by
  unfold shouldIssue; split
  · exact h
  · exact Finset.mem_insert_of_mem h

theorem shouldIssue_mem_self (cx : Context) (s : Stamp) :
    s ∈ (shouldIssue cx s).1.passport := by
  unfold shouldIssue; split
  · assumption
  · exact Finset.mem_insert_self s _

theorem shouldIssue_true_iff (cx : Context) (s : Stamp) :
    (shouldIssue cx s).2 = true ↔ s ∉ cx.passport := by
  unfold shouldIssue; split <;> simp_all

theorem foldl_issueStep_view_interval (mk : TileID → Stamp) (tiles : List TileID) :
    ∀ p : Context × List TileID,
      (tiles.foldl (issueStep mk) p).1.view_interval = p.1.view_interval := by
  induction tiles with
  | nil => intro p; rfl
  | cons t ts ih =>
      intro p
      rw [List.foldl_cons, ih]
      exact shouldIssue_view_interval p.1 (mk t)

theorem foldl_issueStep_passport_mono (mk : TileID → Stamp) (tiles : List TileID) :
    ∀ (p : Context × List TileID) {s : Stamp}, s ∈ p.1.passport →
      s ∈ (tiles.foldl (issueStep mk) p).1.passport := by
  induction tiles with
  | nil => intro p s h; exact h
  | cons t ts ih =>
      intro p s h
      rw [List.foldl_cons]
      exact ih _ (shouldIssue_passport_mono p.1 (mk t) h)

theorem foldl_issueStep_issued_stamped (mk : TileID → Stamp) (tiles : List TileID) :
    ∀ (p : Context × List TileID) (t : TileID),
      t ∈ (tiles.foldl (issueStep mk) p).2 →
      t ∈ p.2 ∨ mk t ∈ (tiles.foldl (issueStep mk) p).1.passport := by
  induction tiles with
  | nil => intro p t h; exact Or.inl h
  | cons t0 ts ih =>
      intro p t h
      rw [List.foldl_cons] at h ⊢
      rcases ih (issueStep mk p t0) t h with h1 | h2
      · by_cases hb : (shouldIssue p.1 (mk t0)).2 = true
        · simp only [issueStep, hb, if_true] at h1
          rcases List.mem_append.mp h1 with h3 | h3
          · exact Or.inl h3
          · right
            have ht : t = t0 := List.mem_singleton.mp h3
            subst ht
            exact foldl_issueStep_passport_mono mk ts _
              (shouldIssue_mem_self p.1 (mk t))
        · simp only [issueStep, Bool.not_eq_true] at hb h1
          rw [hb] at h1
          simp only [if_neg Bool.false_ne_true] at h1
          exact Or.inl h1
      · exact Or.inr h2

theorem foldl_issueStep_stamped_not_issued (mk : TileID → Stamp) (tiles : List TileID) :
    ∀ (p : Context × List TileID) (t : TileID),
      mk t ∈ p.1.passport → t ∉ p.2 →
      t ∉ (tiles.foldl (issueStep mk) p).2 := by
  induction tiles with
  | nil => intro p t _ h2; exact h2
  | cons t0 ts ih =>
      intro p t h1 h2
      rw [List.foldl_cons]
      refine ih (issueStep mk p t0) t (shouldIssue_passport_mono p.1 (mk t0) h1) ?_
      by_cases hb : (shouldIssue p.1 (mk t0)).2 = true
      · simp only [issueStep, hb, if_true]
        intro hmem
        rcases List.mem_append.mp hmem with h3 | h3
        · exact h2 h3
        · have ht : t = t0 := List.mem_singleton.mp h3
          subst ht
          exact ((shouldIssue_true_iff p.1 (mk t)).mp hb) h1
      · simp only [issueStep, Bool.not_eq_true] at hb ⊢
        rw [hb]
        simp only [if_neg Bool.false_ne_true]
        exact h2

theorem shouldIssue_false_of_mem (cx : Context) (s : Stamp) (h : s ∈ cx.passport) :
    (shouldIssue cx s).2 = false := by
  unfold shouldIssue; rw [if_pos h]

/-!
## Claim theorems
-/

/-- **C1**: for every entry and subject, issuing the same logical fetch
twice in succession before the first resolves causes exactly one request to
reach the transport.  On the first `Summary::inflate` the tile-listing
fingerprint is absent from the passport, is recorded, and `fetch_tiles` is
issued; on the second call with the same fingerprint the fetch is skipped.
Likewise, any per-tile summary or slot fetch issued by a first `inflate` is
not issued again by a second `inflate` over the same entry and context. -/
theorem claim1_dedup_single_issue {U I M : Type} (su : Summary U) (sl : Slot I M)
    (config : Config) (cx cxs : Context) (r1 r2 g1 g2 : List TileID)
    (s1 s2 : List (SummaryTile U)) (q1 q2 : List (SlotTile I))
    (hsu : Stamp.fetchTiles su.entry_id (config.interval.intersection cx.view_interval) ∉
      cx.passport) :
    (Summary.inflate su config cx r1 s1).issuedTileListing = true ∧
    (Summary.inflate su config (Summary.inflate su config cx r1 s1).cx r2 s2).issuedTileListing
      = false ∧
    (∀ t ∈ (Summary.inflate su config cx r1 s1).issuedSummaryFetches,
      t ∉ (Summary.inflate su config (Summary.inflate su config cx r1 s1).cx r2
            s2).issuedSummaryFetches) ∧
    (Slot.inflate sl config (Slot.inflate sl config cxs g1 q1).cx g2 q2).issuedTileListing
      = false ∧
    (∀ t ∈ (Slot.inflate sl config cxs g1 q1).issuedSlotFetches,
      t ∉ (Slot.inflate sl config (Slot.inflate sl config cxs g1 q1).cx g2
            q2).issuedSlotFetches) := by
  simp only [Summary.inflate, Slot.inflate, issueTileFetches]
  have hviewS : ∀ (c : Context) (s : Stamp) (mk : TileID → Stamp) (ts : List TileID),
      ((ts.foldl (issueStep mk) ((shouldIssue c s).1, [])).1).view_interval
        = c.view_interval := by
    intro c s mk ts
    rw [foldl_issueStep_view_interval]
    exact shouldIssue_view_interval c s
  have hstampS : ∀ (c : Context) (s : Stamp) (mk : TileID → Stamp) (ts : List TileID),
      s ∈ ((ts.foldl (issueStep mk) ((shouldIssue c s).1, [])).1).passport := by
    intro c s mk ts
    exact foldl_issueStep_passport_mono mk ts _ (shouldIssue_mem_self c s)
  refine ⟨?_, ?_, ?_, ?_, ?_⟩
  · exact (shouldIssue_true_iff cx _).mpr hsu
  · rw [hviewS]
    exact shouldIssue_false_of_mem _ _ (hstampS cx _ _ _)
  · intro t ht
    rcases foldl_issueStep_issued_stamped _ _ _ t ht with h | h
    · exact absurd h (List.not_mem_nil t)
    · refine foldl_issueStep_stamped_not_issued _ _ _ t ?_ (List.not_mem_nil t)
      rw [hviewS]
      exact shouldIssue_passport_mono _ _ h
  · rw [hviewS]
    exact shouldIssue_false_of_mem _ _ (hstampS cxs _ _ _)
  · intro t ht
    rcases foldl_issueStep_issued_stamped _ _ _ t ht with h | h
    · exact absurd h (List.not_mem_nil t)
    · refine foldl_issueStep_stamped_not_issued _ _ _ t ?_ (List.not_mem_nil t)
      rw [hviewS]
      exact shouldIssue_passport_mono _ _ h

/-- Witness for C1 at concrete inputs: an empty passport, one summary and
one slot entry, and singleton tile listings. -/
theorem claim1_dedup_single_issue_witness :
    (Stamp.fetchTiles ([0] : EntryID)
        (Interval.intersection ⟨0, 10⟩ (⟨⟨0, 10⟩, ⟨0, 10⟩, "", "", ⟨[], 0, 0⟩,
          (∅ : Finset Stamp)⟩ : Context).view_interval) ∉
      (⟨⟨0, 10⟩, ⟨0, 10⟩, "", "", ⟨[], 0, 0⟩, (∅ : Finset Stamp)⟩ : Context).passport) ∧
    ((Summary.inflate (⟨[0], [], none, false⟩ : Summary Unit) ⟨0, 0, ⟨0, 10⟩⟩
        ⟨⟨0, 10⟩, ⟨0, 10⟩, "", "", ⟨[], 0, 0⟩, ∅⟩ [⟨⟨0, 4⟩⟩] []).issuedTileListing = true ∧
      (Summary.inflate (⟨[0], [], none, false⟩ : Summary Unit) ⟨0, 0, ⟨0, 10⟩⟩
        (Summary.inflate (⟨[0], [], none, false⟩ : Summary Unit) ⟨0, 0, ⟨0, 10⟩⟩
          ⟨⟨0, 10⟩, ⟨0, 10⟩, "", "", ⟨[], 0, 0⟩, ∅⟩ [⟨⟨0, 4⟩⟩] []).cx [⟨⟨0, 4⟩⟩]
        []).issuedTileListing = false ∧
      (∀ t ∈ (Summary.inflate (⟨[0], [], none, false⟩ : Summary Unit) ⟨0, 0, ⟨0, 10⟩⟩
          ⟨⟨0, 10⟩, ⟨0, 10⟩, "", "", ⟨[], 0, 0⟩, ∅⟩ [⟨⟨0, 4⟩⟩] []).issuedSummaryFetches,
        t ∉ (Summary.inflate (⟨[0], [], none, false⟩ : Summary Unit) ⟨0, 0, ⟨0, 10⟩⟩
          (Summary.inflate (⟨[0], [], none, false⟩ : Summary Unit) ⟨0, 0, ⟨0, 10⟩⟩
            ⟨⟨0, 10⟩, ⟨0, 10⟩, "", "", ⟨[], 0, 0⟩, ∅⟩ [⟨⟨0, 4⟩⟩] []).cx [⟨⟨0, 4⟩⟩]
          []).issuedSummaryFetches) ∧
      (Slot.inflate (⟨[1], "", "", true, 0, [], [], none, false⟩ : Slot Unit Unit)
        ⟨0, 0, ⟨0, 10⟩⟩
        (Slot.inflate (⟨[1], "", "", true, 0, [], [], none, false⟩ : Slot Unit Unit)
          ⟨0, 0, ⟨0, 10⟩⟩ ⟨⟨0, 10⟩, ⟨0, 10⟩, "", "", ⟨[], 0, 0⟩, ∅⟩ [⟨⟨2, 6⟩⟩] []).cx
        [⟨⟨2, 6⟩⟩] []).issuedTileListing = false ∧
      (∀ t ∈ (Slot.inflate (⟨[1], "", "", true, 0, [], [], none, false⟩ : Slot Unit Unit)
          ⟨0, 0, ⟨0, 10⟩⟩ ⟨⟨0, 10⟩, ⟨0, 10⟩, "", "", ⟨[], 0, 0⟩, ∅⟩ [⟨⟨2, 6⟩⟩]
          []).issuedSlotFetches,
        t ∉ (Slot.inflate (⟨[1], "", "", true, 0, [], [], none, false⟩ : Slot Unit Unit)
          ⟨0, 0, ⟨0, 10⟩⟩
          (Slot.inflate (⟨[1], "", "", true, 0, [], [], none, false⟩ : Slot Unit Unit)
            ⟨0, 0, ⟨0, 10⟩⟩ ⟨⟨0, 10⟩, ⟨0, 10⟩, "", "", ⟨[], 0, 0⟩, ∅⟩ [⟨⟨2, 6⟩⟩] []).cx
          [⟨⟨2, 6⟩⟩] []).issuedSlotFetches)) :=
  ⟨by decide,
    claim1_dedup_single_issue (⟨[0], [], none, false⟩ : Summary Unit)
      (⟨[1], "", "", true, 0, [], [], none, false⟩ : Slot Unit Unit) ⟨0, 0, ⟨0, 10⟩⟩
      ⟨⟨0, 10⟩, ⟨0, 10⟩, "", "", ⟨[], 0, 0⟩, ∅⟩ ⟨⟨0, 10⟩, ⟨0, 10⟩, "", "", ⟨[], 0, 0⟩, ∅⟩
      [⟨⟨0, 4⟩⟩] [⟨⟨0, 4⟩⟩] [⟨⟨2, 6⟩⟩] [⟨⟨2, 6⟩⟩] [] [] [] [] (by decide)⟩

/-- **C2**, counterexample: the claim that every dedup fingerprint covers
`(entry_id, request_subject, operation_kind)` fails at the slot-meta call
site.  Here two distinct entries `[0]` and `[1]` request the same tile's
metadata: the stamps coincide, the first call issues the fetch and the
second call is suppressed by the first call's fingerprint. -/
theorem claim2_counterexample :
    ([0] : EntryID) ≠ [1] ∧
    metaStampOf [0] ⟨⟨0, 4⟩⟩ = metaStampOf [1] ⟨⟨0, 4⟩⟩ ∧
    (Slot.fetch_meta_tile (⟨[0], "", "", true, 0, [], [], none, false⟩ : Slot Unit Unit)
      ⟨⟨0, 4⟩⟩ ⟨⟨0, 10⟩, ⟨0, 10⟩, "", "", ⟨[], 0, 0⟩, ∅⟩ []).issuedMetaFetch = true ∧
    (Slot.fetch_meta_tile (⟨[1], "", "", true, 0, [], [], none, false⟩ : Slot Unit Unit)
      ⟨⟨0, 4⟩⟩
      (Slot.fetch_meta_tile (⟨[0], "", "", true, 0, [], [], none, false⟩ : Slot Unit Unit)
        ⟨⟨0, 4⟩⟩ ⟨⟨0, 10⟩, ⟨0, 10⟩, "", "", ⟨[], 0, 0⟩, ∅⟩ []).cx []).issuedMetaFetch
      = false := by
  decide

/-- **C2**, amended: the tile-listing, summary-tile and slot-tile
fingerprints are each computed over all of `(entry_id, request_subject,
operation_kind)` and are injective in those components, but the slot-meta
fingerprint of `Slot::fetch_meta_tile` covers only `(tile_id,
operation_kind)`: it is independent of the entry, so once one entry's meta
fetch for a tile has stamped the passport, any other entry's meta fetch for
the same tile is suppressed. -/
theorem claim2_meta_stamp_ignores_entry {I M : Type} [DecidableEq M] (sl sl' : Slot I M)
    (cx : Context) (t : TileID) (resp resp' : List (SlotMetaTile M))
    (h1 : sl.tile_metas.lookup t = none) (h2 : sl'.tile_metas.lookup t = none) :
    (∀ e e' iv iv', Stamp.fetchTiles e iv = Stamp.fetchTiles e' iv' ↔ e = e' ∧ iv = iv') ∧
    (∀ e e' a b, Stamp.summaryTile e a = Stamp.summaryTile e' b ↔ e = e' ∧ a = b) ∧
    (∀ e e' a b, Stamp.slotTile e a = Stamp.slotTile e' b ↔ e = e' ∧ a = b) ∧
    (∀ e e', metaStampOf e t = metaStampOf e' t) ∧
    (Slot.fetch_meta_tile sl' t (Slot.fetch_meta_tile sl t cx resp).cx
      resp').issuedMetaFetch = false := by
  have key : ∀ (s : Slot I M) (c : Context) (r : List (SlotMetaTile M)),
      s.tile_metas.lookup t = none →
      (Slot.fetch_meta_tile s t c r).issuedMetaFetch
          = (shouldIssue c (Stamp.fetchMetaTile t)).2 ∧
        (Slot.fetch_meta_tile s t c r).cx = (shouldIssue c (Stamp.fetchMetaTile t)).1 := by
    intro s c r h
    simp only [Slot.fetch_meta_tile, h, metaStampOf]
    split <;> exact ⟨rfl, rfl⟩
  refine ⟨?_, ?_, ?_, ?_, ?_⟩
  · intro e e' iv iv'; exact Stamp.fetchTiles.injEq e iv e' iv' ▸ Iff.rfl
  · intro e e' a b; exact Stamp.summaryTile.injEq e a e' b ▸ Iff.rfl
  · intro e e' a b; exact Stamp.slotTile.injEq e a e' b ▸ Iff.rfl
  · intro e e'; rfl
  · rw [(key sl' _ resp' h2).1, (key sl cx resp h1).2]
    exact shouldIssue_false_of_mem _ _ (shouldIssue_mem_self cx _)

/-- Witness for the amended C2 at concrete inputs: two slots over entries
`[0]` and `[1]` with empty meta caches. -/
theorem claim2_meta_stamp_ignores_entry_witness :
    ((⟨[0], "", "", true, 0, [], [], none, false⟩ : Slot Unit Unit).tile_metas.lookup
        ⟨⟨0, 4⟩⟩ = none) ∧
    ((⟨[1], "", "", true, 0, [], [], none, false⟩ : Slot Unit Unit).tile_metas.lookup
        ⟨⟨0, 4⟩⟩ = none) ∧
    ((∀ e e' iv iv', Stamp.fetchTiles e iv = Stamp.fetchTiles e' iv' ↔ e = e' ∧ iv = iv') ∧
      (∀ e e' a b, Stamp.summaryTile e a = Stamp.summaryTile e' b ↔ e = e' ∧ a = b) ∧
      (∀ e e' a b, Stamp.slotTile e a = Stamp.slotTile e' b ↔ e = e' ∧ a = b) ∧
      (∀ e e', metaStampOf e ⟨⟨0, 4⟩⟩ = metaStampOf e' ⟨⟨0, 4⟩⟩) ∧
      (Slot.fetch_meta_tile (⟨[1], "", "", true, 0, [], [], none, false⟩ : Slot Unit Unit)
        ⟨⟨0, 4⟩⟩
        (Slot.fetch_meta_tile (⟨[0], "", "", true, 0, [], [], none, false⟩ : Slot Unit Unit)
          ⟨⟨0, 4⟩⟩ ⟨⟨0, 10⟩, ⟨0, 10⟩, "", "", ⟨[], 0, 0⟩, ∅⟩ []).cx []).issuedMetaFetch
        = false) :=
  ⟨rfl, rfl,
    claim2_meta_stamp_ignores_entry
      (⟨[0], "", "", true, 0, [], [], none, false⟩ : Slot Unit Unit)
      (⟨[1], "", "", true, 0, [], [], none, false⟩ : Slot Unit Unit)
      ⟨⟨0, 10⟩, ⟨0, 10⟩, "", "", ⟨[], 0, 0⟩, ∅⟩ ⟨⟨0, 4⟩⟩ [] [] rfl rfl⟩

/-- **C3**: for an entry with no cached listing, two tile-listing fetches
merge by set union: afterwards `get_tiles` returns a duplicate-free list
whose elements are exactly the union of the two fetch results, and the
first result is preserved as a prefix (nothing is replaced or removed). -/
theorem claim3_fetch_tiles_union {U I M : Type} (w : DeferredDataSourceWrapper U I M)
    (e : EntryID) (iv1 iv2 : Interval)
    (h0 : w.tiles e = none)
    (h1 : (w.data_source.request_tiles e iv1).Nodup)
    (h2 : (w.data_source.request_tiles e iv2).Nodup) :
    ∃ l, ((w.fetch_tiles e iv1).fetch_tiles e iv2).get_tiles e = some l ∧
      l.toFinset = (w.data_source.request_tiles e iv1).toFinset ∪
        (w.data_source.request_tiles e iv2).toFinset ∧
      l.Nodup ∧
      ∃ rest, l = w.data_source.request_tiles e iv1 ++ rest := by
  classical
  set r1 := w.data_source.request_tiles e iv1 with hr1
  set r2 := w.data_source.request_tiles e iv2 with hr2
  have hfilter1 : r1.filter (fun x => decide (x ∉ r1)) = [] := by
    rw [List.filter_eq_nil_iff]
    intro a ha
    simp [ha]
  have ht1 : (w.fetch_tiles e iv1).tiles e = some r1 := by
    simp [DeferredDataSourceWrapper.fetch_tiles, h0, hfilter1, ← hr1]
  have hds1 : (w.fetch_tiles e iv1).data_source = w.data_source := rfl
  have ht2 : ((w.fetch_tiles e iv1).fetch_tiles e iv2).tiles e
      = some (r1 ++ r2.filter (fun x => decide (x ∉ r1))) := by
    conv_lhs => rw [DeferredDataSourceWrapper.fetch_tiles]
    simp [hds1, ht1, ← hr2]
  refine ⟨r1 ++ r2.filter (fun x => decide (x ∉ r1)),
    ht2, ?_, ?_, r2.filter (fun x => decide (x ∉ r1)), rfl⟩
  · ext a
    simp only [List.toFinset_append, Finset.mem_union, List.mem_toFinset,
      List.mem_filter, decide_eq_true_eq]
    constructor
    · rintro (h | ⟨h, _⟩)
      · exact Or.inl h
      · exact Or.inr h
    · rintro (h | h)
      · exact Or.inl h
      · by_cases hm : a ∈ r1
        · exact Or.inl hm
        · exact Or.inr ⟨h, hm⟩
  · refine h1.append (h2.filter _) ?_
    intro a ha1 ha2
    have := (List.mem_filter.mp ha2).2
    simp only [decide_eq_true_eq] at this
    exact this ha1

/-- Witness for C3 at concrete inputs: a fresh wrapper over a backend whose
listing for interval `[0,5)` is one tile and for `[3,8)` two tiles with one
overlap. -/
theorem claim3_fetch_tiles_union_witness :
    ((DeferredDataSourceWrapper.new
        ⟨⟨⟨0, 0⟩⟩, fun _ iv => if iv = ⟨0, 5⟩ then [⟨⟨0, 4⟩⟩] else [⟨⟨0, 4⟩⟩, ⟨⟨4, 8⟩⟩],
          fun _ _ => ⟨⟨⟨0, 0⟩⟩, []⟩, fun _ _ => ⟨⟨⟨0, 0⟩⟩, []⟩,
          fun _ _ => ⟨⟨⟨0, 0⟩⟩, []⟩⟩ : DeferredDataSourceWrapper Unit Unit Unit).tiles [0]
      = none) ∧
    (((DeferredDataSourceWrapper.new
        ⟨⟨⟨0, 0⟩⟩, fun _ iv => if iv = ⟨0, 5⟩ then [⟨⟨0, 4⟩⟩] else [⟨⟨0, 4⟩⟩, ⟨⟨4, 8⟩⟩],
          fun _ _ => ⟨⟨⟨0, 0⟩⟩, []⟩, fun _ _ => ⟨⟨⟨0, 0⟩⟩, []⟩,
          fun _ _ => ⟨⟨⟨0, 0⟩⟩, []⟩⟩ : DeferredDataSourceWrapper Unit Unit
            Unit).data_source.request_tiles [0] ⟨0, 5⟩).Nodup) ∧
    (((DeferredDataSourceWrapper.new
        ⟨⟨⟨0, 0⟩⟩, fun _ iv => if iv = ⟨0, 5⟩ then [⟨⟨0, 4⟩⟩] else [⟨⟨0, 4⟩⟩, ⟨⟨4, 8⟩⟩],
          fun _ _ => ⟨⟨⟨0, 0⟩⟩, []⟩, fun _ _ => ⟨⟨⟨0, 0⟩⟩, []⟩,
          fun _ _ => ⟨⟨⟨0, 0⟩⟩, []⟩⟩ : DeferredDataSourceWrapper Unit Unit
            Unit).data_source.request_tiles [0] ⟨3, 8⟩).Nodup) ∧
    (∃ l, (((DeferredDataSourceWrapper.new
        ⟨⟨⟨0, 0⟩⟩, fun _ iv => if iv = ⟨0, 5⟩ then [⟨⟨0, 4⟩⟩] else [⟨⟨0, 4⟩⟩, ⟨⟨4, 8⟩⟩],
          fun _ _ => ⟨⟨⟨0, 0⟩⟩, []⟩, fun _ _ => ⟨⟨⟨0, 0⟩⟩, []⟩,
          fun _ _ => ⟨⟨⟨0, 0⟩⟩, []⟩⟩ : DeferredDataSourceWrapper Unit Unit
            Unit).fetch_tiles [0] ⟨0, 5⟩).fetch_tiles [0] ⟨3, 8⟩).get_tiles [0] = some l ∧
      l.toFinset = ((DeferredDataSourceWrapper.new
        ⟨⟨⟨0, 0⟩⟩, fun _ iv => if iv = ⟨0, 5⟩ then [⟨⟨0, 4⟩⟩] else [⟨⟨0, 4⟩⟩, ⟨⟨4, 8⟩⟩],
          fun _ _ => ⟨⟨⟨0, 0⟩⟩, []⟩, fun _ _ => ⟨⟨⟨0, 0⟩⟩, []⟩,
          fun _ _ => ⟨⟨⟨0, 0⟩⟩, []⟩⟩ : DeferredDataSourceWrapper Unit Unit
            Unit).data_source.request_tiles [0] ⟨0, 5⟩).toFinset ∪
        ((DeferredDataSourceWrapper.new
        ⟨⟨⟨0, 0⟩⟩, fun _ iv => if iv = ⟨0, 5⟩ then [⟨⟨0, 4⟩⟩] else [⟨⟨0, 4⟩⟩, ⟨⟨4, 8⟩⟩],
          fun _ _ => ⟨⟨⟨0, 0⟩⟩, []⟩, fun _ _ => ⟨⟨⟨0, 0⟩⟩, []⟩,
          fun _ _ => ⟨⟨⟨0, 0⟩⟩, []⟩⟩ : DeferredDataSourceWrapper Unit Unit
            Unit).data_source.request_tiles [0] ⟨3, 8⟩).toFinset ∧
      l.Nodup ∧
      ∃ rest, l = ((DeferredDataSourceWrapper.new
        ⟨⟨⟨0, 0⟩⟩, fun _ iv => if iv = ⟨0, 5⟩ then [⟨⟨0, 4⟩⟩] else [⟨⟨0, 4⟩⟩, ⟨⟨4, 8⟩⟩],
          fun _ _ => ⟨⟨⟨0, 0⟩⟩, []⟩, fun _ _ => ⟨⟨⟨0, 0⟩⟩, []⟩,
          fun _ _ => ⟨⟨⟨0, 0⟩⟩, []⟩⟩ : DeferredDataSourceWrapper Unit Unit
            Unit).data_source.request_tiles [0] ⟨0, 5⟩) ++ rest) :=
  ⟨rfl, by decide, by decide,
    claim3_fetch_tiles_union
      (DeferredDataSourceWrapper.new
        ⟨⟨⟨0, 0⟩⟩, fun _ iv => if iv = ⟨0, 5⟩ then [⟨⟨0, 4⟩⟩] else [⟨⟨0, 4⟩⟩, ⟨⟨4, 8⟩⟩],
          fun _ _ => ⟨⟨⟨0, 0⟩⟩, []⟩, fun _ _ => ⟨⟨⟨0, 0⟩⟩, []⟩,
          fun _ _ => ⟨⟨⟨0, 0⟩⟩, []⟩⟩)
      [0] ⟨0, 5⟩ ⟨3, 8⟩ rfl (by decide) (by decide)⟩

/-- **C4**: `get_tiles` on an entry never fetched.  The claim (and spec
section 7) requires an explicit empty/absent result and no panic, but the
source runs `self.tiles.get(&entry_id).unwrap()`, which panics on a fresh
wrapper; the `none` result of the model is that panic. -/
theorem claim4_get_tiles_never_fetched_panics {U I M : Type} (ds : DataSource U I M)
    (e : EntryID) : (DeferredDataSourceWrapper.new ds).get_tiles e = none := rfl

/-- **C5**, counterexample: a genuine view-interval change (zoom from
`[0,10)` to `[2,5)`) leaves a non-empty passport completely untouched — the
ledger is not cleared or invalidated on interval change. -/
theorem claim5_counterexample :
    ((⟨2, 5⟩ : Interval) ≠
      (⟨⟨0, 10⟩, ⟨0, 10⟩, "", "", ⟨[⟨0, 10⟩], 0, 0⟩,
        {Stamp.fetchTiles [] ⟨0, 10⟩}⟩ : Context).view_interval) ∧
    (ProfApp.zoom
      ⟨⟨0, 10⟩, ⟨0, 10⟩, "", "", ⟨[⟨0, 10⟩], 0, 0⟩, {Stamp.fetchTiles [] ⟨0, 10⟩}⟩
      ⟨2, 5⟩).view_interval = ⟨2, 5⟩ ∧
    (ProfApp.zoom
      ⟨⟨0, 10⟩, ⟨0, 10⟩, "", "", ⟨[⟨0, 10⟩], 0, 0⟩, {Stamp.fetchTiles [] ⟨0, 10⟩}⟩
      ⟨2, 5⟩).passport = {Stamp.fetchTiles [] ⟨0, 10⟩} ∧
    (ProfApp.zoom
      ⟨⟨0, 10⟩, ⟨0, 10⟩, "", "", ⟨[⟨0, 10⟩], 0, 0⟩, {Stamp.fetchTiles [] ⟨0, 10⟩}⟩
      ⟨2, 5⟩).passport ≠ (∅ : Finset Stamp) := by
  refine ⟨by decide, ?_, ?_, ?_⟩ <;> · rw [ProfApp.zoom]; decide

/-- **C5**, amended: the dedup ledger is never cleared or invalidated at
all — `zoom`, `undo_zoom` and `redo_zoom` (the only view-window updates)
leave the passport of the context unchanged, so a tile-scoped repeat fetch
needed after an interval change is silently dropped; only the tile-listing
fingerprints, which embed the interval, avoid cross-interval collisions. -/
theorem claim5_passport_never_cleared (cx : Context) (iv : Interval) :
    (ProfApp.zoom cx iv).passport = cx.passport ∧
    (ProfApp.undo_zoom cx).passport = cx.passport ∧
    (ProfApp.redo_zoom cx).passport = cx.passport := by
  unfold ProfApp.zoom ProfApp.undo_zoom ProfApp.redo_zoom
  refine ⟨?_, ?_, ?_⟩ <;> (split <;> rfl)

/-- **C6**: when an expanded slot sees a view interval different from the
one it last rendered, `Slot::content` clears its cached tiles and tile
metadata before repopulating, records the new view interval, and the tile
listing driving the repopulation is filtered so that every tile in it
overlaps the new effective query interval (the profile interval intersected
with the view interval); no previously cached tile survives. -/
theorem claim6_interval_change_reload {I M : Type} (sl : Slot I M) (config : Config)
    (cx : Context) (g : List TileID) (q : List (SlotTile I))
    (hexp : sl.expanded = true)
    (hch : sl.last_view_interval ≠ some cx.view_interval) :
    (Slot.content sl config cx g q).slot.tiles = q ∧
    (Slot.content sl config cx g q).slot.tile_metas = [] ∧
    (Slot.content sl config cx g q).slot.last_view_interval = some cx.view_interval ∧
    (Slot.content sl config cx g q).usedTiles =
      g.filter (fun t => t.i.overlaps (config.interval.intersection cx.view_interval)) ∧
    ∀ t ∈ (Slot.content sl config cx g q).usedTiles,
      t.i.overlaps (config.interval.intersection cx.view_interval) = true := by
  have hchanged : (match sl.last_view_interval with
      | none => true
      | some i => decide (i ≠ cx.view_interval)) = true := by
    cases hl : sl.last_view_interval with
    | none => rfl
    | some i =>
        rw [hl] at hch
        simp only [decide_eq_true_eq]
        intro h
        exact hch (by rw [h])
  have hmain : Slot.content sl config cx g q
      = Slot.inflate
          { sl.clear with last_view_interval := some cx.view_interval } config cx g q := by
    rw [Slot.content]
    rw [if_pos hexp, hchanged]
    simp only [if_true, Slot.clear, List.isEmpty_nil, if_pos rfl]
  rw [hmain]
  simp only [Slot.inflate, Slot.clear, issueTileFetches, List.nil_append]
  refine ⟨trivial, trivial, trivial, trivial, ?_⟩
  intro t ht
  exact (List.mem_filter.mp ht).2

/-- Witness for C6 at concrete inputs: an expanded slot last rendered at
view interval `[0,5)`, now rendered at `[0,10)`, with a two-tile listing of
which one tile is outside the effective interval. -/
theorem claim6_interval_change_reload_witness :
    ((⟨[0], "", "", true, 0, [⟨⟨⟨0, 2⟩⟩, []⟩], [], some ⟨0, 5⟩, false⟩ :
        Slot Unit Unit).expanded = true) ∧
    ((⟨[0], "", "", true, 0, [⟨⟨⟨0, 2⟩⟩, []⟩], [], some ⟨0, 5⟩, false⟩ :
        Slot Unit Unit).last_view_interval ≠
      some (⟨⟨0, 20⟩, ⟨0, 10⟩, "", "", ⟨[], 0, 0⟩, ∅⟩ : Context).view_interval) ∧
    ((Slot.content (⟨[0], "", "", true, 0, [⟨⟨⟨0, 2⟩⟩, []⟩], [], some ⟨0, 5⟩, false⟩ :
        Slot Unit Unit) ⟨0, 0, ⟨0, 10⟩⟩ ⟨⟨0, 20⟩, ⟨0, 10⟩, "", "", ⟨[], 0, 0⟩, ∅⟩
        [⟨⟨2, 6⟩⟩, ⟨⟨30, 40⟩⟩] [⟨⟨⟨2, 6⟩⟩, []⟩]).slot.tiles = [⟨⟨⟨2, 6⟩⟩, []⟩] ∧
      (Slot.content (⟨[0], "", "", true, 0, [⟨⟨⟨0, 2⟩⟩, []⟩], [], some ⟨0, 5⟩, false⟩ :
        Slot Unit Unit) ⟨0, 0, ⟨0, 10⟩⟩ ⟨⟨0, 20⟩, ⟨0, 10⟩, "", "", ⟨[], 0, 0⟩, ∅⟩
        [⟨⟨2, 6⟩⟩, ⟨⟨30, 40⟩⟩] [⟨⟨⟨2, 6⟩⟩, []⟩]).slot.tile_metas = [] ∧
      (Slot.content (⟨[0], "", "", true, 0, [⟨⟨⟨0, 2⟩⟩, []⟩], [], some ⟨0, 5⟩, false⟩ :
        Slot Unit Unit) ⟨0, 0, ⟨0, 10⟩⟩ ⟨⟨0, 20⟩, ⟨0, 10⟩, "", "", ⟨[], 0, 0⟩, ∅⟩
        [⟨⟨2, 6⟩⟩, ⟨⟨30, 40⟩⟩] [⟨⟨⟨2, 6⟩⟩, []⟩]).slot.last_view_interval =
        some (⟨⟨0, 20⟩, ⟨0, 10⟩, "", "", ⟨[], 0, 0⟩, ∅⟩ : Context).view_interval ∧
      (Slot.content (⟨[0], "", "", true, 0, [⟨⟨⟨0, 2⟩⟩, []⟩], [], some ⟨0, 5⟩, false⟩ :
        Slot Unit Unit) ⟨0, 0, ⟨0, 10⟩⟩ ⟨⟨0, 20⟩, ⟨0, 10⟩, "", "", ⟨[], 0, 0⟩, ∅⟩
        [⟨⟨2, 6⟩⟩, ⟨⟨30, 40⟩⟩] [⟨⟨⟨2, 6⟩⟩, []⟩]).usedTiles =
        ([⟨⟨2, 6⟩⟩, ⟨⟨30, 40⟩⟩] : List TileID).filter
          (fun t => t.i.overlaps (Interval.intersection ⟨0, 10⟩
            (⟨⟨0, 20⟩, ⟨0, 10⟩, "", "", ⟨[], 0, 0⟩, ∅⟩ : Context).view_interval)) ∧
      ∀ t ∈ (Slot.content (⟨[0], "", "", true, 0, [⟨⟨⟨0, 2⟩⟩, []⟩], [], some ⟨0, 5⟩, false⟩ :
        Slot Unit Unit) ⟨0, 0, ⟨0, 10⟩⟩ ⟨⟨0, 20⟩, ⟨0, 10⟩, "", "", ⟨[], 0, 0⟩, ∅⟩
        [⟨⟨2, 6⟩⟩, ⟨⟨30, 40⟩⟩] [⟨⟨⟨2, 6⟩⟩, []⟩]).usedTiles,
        t.i.overlaps (Interval.intersection ⟨0, 10⟩
          (⟨⟨0, 20⟩, ⟨0, 10⟩, "", "", ⟨[], 0, 0⟩, ∅⟩ : Context).view_interval) = true) :=
  ⟨rfl, by decide,
    claim6_interval_change_reload
      (⟨[0], "", "", true, 0, [⟨⟨⟨0, 2⟩⟩, []⟩], [], some ⟨0, 5⟩, false⟩ : Slot Unit Unit)
      ⟨0, 0, ⟨0, 10⟩⟩ ⟨⟨0, 20⟩, ⟨0, 10⟩, "", "", ⟨[], 0, 0⟩, ∅⟩
      [⟨⟨2, 6⟩⟩, ⟨⟨30, 40⟩⟩] [⟨⟨⟨2, 6⟩⟩, []⟩] rfl (by decide)⟩

theorem process_queue_queue_eq_nil {U I M : Type} (d : Decoders U I M)
    (s s' : HTTPQueueDataSource U I M)
    (h : HTTPQueueDataSource.process_queue d s = some s') : s'.queue = [] := by
  unfold HTTPQueueDataSource.process_queue at h
  cases hf : s.queue.foldlM (HTTPQueueDataSource.processWork d) s with
  | none => rw [hf] at h; simp at h
  | some s0 =>
      rw [hf] at h
      simp only [Option.pure_def, Option.bind_eq_bind, Option.some_bind,
        Option.some_inj] at h
      rw [← h]

/-- **C7**, counterexample: a completed summary-tile response is sitting in
the queue, but `fetch_summary_tile` does not drain the queue at its start:
it leaves the state (queue included) untouched and returns no data, even
though draining (as every other fetch does) would have folded that response
into the cache. -/
theorem claim7_counterexample :
    queuedSummaryState.queue ≠ [] ∧
    (HTTPQueueDataSource.fetch_summary_tile queuedSummaryState [0] ⟨⟨0, 4⟩⟩).1
      = queuedSummaryState ∧
    (HTTPQueueDataSource.fetch_summary_tile queuedSummaryState [0] ⟨⟨0, 4⟩⟩).2.1 = none ∧
    (HTTPQueueDataSource.process_queue summaryDecoders queuedSummaryState).map
      (fun s => s.fetch_summary_tile_cache ([0], ⟨⟨0, 4⟩⟩)) = some (some ⟨⟨⟨0, 4⟩⟩, []⟩) := by
  exact ⟨by decide, rfl, rfl, rfl⟩

/-- **C7**, amended: of the queue-client's fetch operations,
`request_tiles`, `fetch_slot_tile`, `fetch_slot_tiles`,
`fetch_slot_meta_tile` and `fetch_slot_meta_tiles` drain the queue at their
start (they succeed exactly when `process_queue` does, and leave the queue
empty), but `fetch_summary_tile` and `fetch_summary_tiles` do not: they
consult their caches directly and leave the state untouched, so a result
pending in the queue is invisible to them until some other operation
drains it. -/
theorem claim7_drain_coverage {U I M : Type} (d : Decoders U I M)
    (s : HTTPQueueDataSource U I M) (e : EntryID) (t : TileID) (ts : List TileID)
    (iv : Interval) :
    (HTTPQueueDataSource.fetch_summary_tile s e t).1 = s ∧
    (HTTPQueueDataSource.fetch_summary_tiles s e ts).1 = s ∧
    (HTTPQueueDataSource.request_tiles d s e iv).map (fun r => r.1.queue) =
      (HTTPQueueDataSource.process_queue d s).map (fun _ => []) ∧
    (HTTPQueueDataSource.fetch_slot_tile d s e t).map (fun r => r.1.queue) =
      (HTTPQueueDataSource.process_queue d s).map (fun _ => []) ∧
    (HTTPQueueDataSource.fetch_slot_tiles d s e ts).map (fun r => r.1.queue) =
      (HTTPQueueDataSource.process_queue d s).map (fun _ => []) ∧
    (HTTPQueueDataSource.fetch_slot_meta_tile d s e t).map (fun r => r.1.queue) =
      (HTTPQueueDataSource.process_queue d s).map (fun _ => []) ∧
    (HTTPQueueDataSource.fetch_slot_meta_tiles d s e ts).map (fun r => r.1.queue) =
      (HTTPQueueDataSource.process_queue d s).map (fun _ => []) := by
  refine ⟨?_, ?_, ?_, ?_, ?_, ?_, ?_⟩
  · rw [HTTPQueueDataSource.fetch_summary_tile]
    cases s.fetch_summary_tile_cache (e, t) <;> rfl
  · rw [HTTPQueueDataSource.fetch_summary_tiles]
    cases s.fetch_summary_tiles_cache (e, ts) <;> rfl
  · rw [HTTPQueueDataSource.request_tiles]
    cases hq : HTTPQueueDataSource.process_queue d s with
    | none => rfl
    | some s' =>
        have hnil := process_queue_queue_eq_nil d s s' hq
        simp only [Option.bind_eq_bind, Option.some_bind, Option.map_some]
        cases s'.request_tiles_cache (e, iv) <;> simp [hnil]
  · rw [HTTPQueueDataSource.fetch_slot_tile]
    cases hq : HTTPQueueDataSource.process_queue d s with
    | none => rfl
    | some s' =>
        have hnil := process_queue_queue_eq_nil d s s' hq
        simp only [Option.bind_eq_bind, Option.some_bind, Option.map_some]
        cases s'.fetch_slot_tile_cache (e, t) <;> simp [hnil]
  · rw [HTTPQueueDataSource.fetch_slot_tiles]
    cases hq : HTTPQueueDataSource.process_queue d s with
    | none => rfl
    | some s' =>
        have hnil := process_queue_queue_eq_nil d s s' hq
        simp only [Option.bind_eq_bind, Option.some_bind, Option.map_some]
        cases s'.fetch_slot_tiles_cache (e, ts) <;> simp [hnil]
  · rw [HTTPQueueDataSource.fetch_slot_meta_tile]
    cases hq : HTTPQueueDataSource.process_queue d s with
    | none => rfl
    | some s' =>
        have hnil := process_queue_queue_eq_nil d s s' hq
        simp only [Option.bind_eq_bind, Option.some_bind, Option.map_some]
        cases s'.fetch_slot_meta_tile_cache (e, t) <;> simp [hnil]
  · rw [HTTPQueueDataSource.fetch_slot_meta_tiles]
    cases hq : HTTPQueueDataSource.process_queue d s with
    | none => rfl
    | some s' =>
        have hnil := process_queue_queue_eq_nil d s s' hq
        simp only [Option.bind_eq_bind, Option.some_bind, Option.map_some]
        cases s'.fetch_slot_meta_tiles_cache (e, ts) <;> simp [hnil]

/-- **C8**, counterexample: `get_summary_tiles` consumes the cache — with
one summary tile cached, a first poll returns it and an immediately
following poll returns the empty list, so polling is not idempotent. -/
theorem claim8_counterexample :
    (cachedSummaryWrapper.get_summary_tiles).1 = [⟨⟨⟨0, 1⟩⟩, []⟩] ∧
    ((cachedSummaryWrapper.get_summary_tiles).2.get_summary_tiles).1 = [] ∧
    ([⟨⟨⟨0, 1⟩⟩, []⟩] : List (SummaryTile Unit)) ≠ [] :=
  ⟨rfl, rfl, by decide⟩

/-- **C8**, amended: on the wrapper, only `get_tiles` reads its cache
without consuming it (it is a pure lookup of the listing map); the other
getters drain their caches — each returns everything currently cached and
clears the cache, so a second call with no intervening fetch returns the
empty list. -/
theorem claim8_get_drains_cache {U I M : Type} (w : DeferredDataSourceWrapper U I M)
    (e : EntryID) :
    (w.get_summary_tiles).1 = w.summary_tiles ∧
    ((w.get_summary_tiles).2.get_summary_tiles).1 = [] ∧
    (w.get_slot_tile).1 = w.slot_tiles ∧
    ((w.get_slot_tile).2.get_slot_tile).1 = [] ∧
    (w.get_slot_meta_tile).1 = w.slot_meta_tiles ∧
    ((w.get_slot_meta_tile).2.get_slot_meta_tile).1 = [] ∧
    ((w.get_summary_tiles).2).get_tiles e = w.get_tiles e :=
  ⟨rfl, rfl, rfl, rfl, rfl, rfl, rfl⟩

/-- **C9**: a work item whose payload is undeserializable for its
discriminator.  The claim (and spec section 7a) requires a recoverable
per-request failure, but `process_queue` unwraps every `serde_json`
result, so draining a queue holding such an item panics; the `none` result
of the model is that panic. -/
theorem claim9_malformed_response_panics :
    failingDecoders.slotTile "garbage" = none ∧
    HTTPQueueDataSource.process_queue failingDecoders malformedQueueState = none :=
  ⟨rfl, rfl⟩

/-- **C10**: on the wrapper over a synchronous backend, `fetch_info` is a
no-op and `get_info` always returns `Some` of the wrapped source's info —
in every state, whether or not `fetch_info` was ever called. -/
theorem claim10_get_info_total {U I M : Type} (w : DeferredDataSourceWrapper U I M) :
    w.fetch_info = w ∧
    w.get_info = some w.data_source.fetch_info ∧
    ((w.fetch_info).get_info).isSome = true ∧
    (w.get_info).isSome = true :=
  ⟨rfl, rfl, rfl, rfl⟩

end ProfViewer
